import Mathlib

/-!
Shallow embedding of the connection-registry and session-lifecycle core of
`src/lib/streamlit/proxy/Proxy.py`.

The Python `Proxy` object holds:
  * `self._connections` : a dict from report names to `ProxyConnection`
    objects (modelled here as an association list with dict semantics);
  * `self._stopped`     : a bool guarding against stopping the event loop
    twice (`Proxy.stop`).

A `ProxyConnection` object carries a name, an opaque report id, a set of
client (observer) queues, a local producer link, and a grace-period flag.
The `ProxyConnection` class itself is not part of this slice of the source,
so its methods (`can_be_deregistered`, `end_grace_period`,
`add_client_queue`, `remove_client_queue`) are modelled from the spec; all
`Proxy` methods are translated directly from `Proxy.py`.

Python object identity (`is`) is modelled by giving every connection object
a unique identity token `ident`; two objects with different tokens are
different objects even when every other field agrees.  External side
effects are made observable in the state: `loopStops` counts the
`IOLoop.current().stop()` calls that were actually performed, and
`launched` logs each `_launch_web_client(name)` invocation.
-/

/-- The producer ("local") link of a session: present and live, absent, or
having signaled termination. -/
inductive ProducerLink where
  | active
  | absent
  | terminated
deriving DecidableEq, Repr

/-- A `ProxyConnection` object.  `ident` is the Python object identity;
`clientQueues` is the set of observer queue handles; `nextQueueId` mints
fresh queue handles for `add_client_queue`. -/
structure ProxyConnection where
  ident : Nat
  name : String
  reportId : Nat
  clientQueues : List Nat
  producer : ProducerLink
  inGracePeriod : Bool
  nextQueueId : Nat
deriving DecidableEq, Repr

/-- Dict lookup `m.get(n, None)` on the association-list model of
`self._connections`. -/
def dictGet : List (String × ProxyConnection) → String → Option ProxyConnection
  | [], _ => none
  | (k, v) :: rest, n => if k = n then some v else dictGet rest n

/-- Dict assignment `m[n] = c`: replaces the binding of `n` in place if it
exists, otherwise appends a new binding (Python dicts keep the original
position of a replaced key). -/
def dictSet : List (String × ProxyConnection) → String → ProxyConnection →
    List (String × ProxyConnection)
  | [], n, c => [(n, c)]
  | (k, v) :: rest, n, c =>
      if k = n then (n, c) :: rest else (k, v) :: dictSet rest n c

/-- Dict deletion `del m[n]`: removes the binding of `n` (keys are unique in
a dict, so removing the first suffices). -/
def dictDel : List (String × ProxyConnection) → String →
    List (String × ProxyConnection)
  | [], _ => []
  | (k, v) :: rest, n => if k = n then rest else (k, v) :: dictDel rest n

/-- Number of bindings a name has in the association list; a well-formed
dict encoding gives every name at most one. -/
def countKey : List (String × ProxyConnection) → String → Nat
  | [], _ => 0
  | (k, _) :: rest, n => (if k = n then 1 else 0) + countKey rest n

/-- The observable state of the `Proxy` object together with its external
effects: `connections` is `self._connections`, `stopped` is
`self._stopped`, `loopStops` counts performed `IOLoop.current().stop()`
calls, and `launched` logs the `_launch_web_client` invocations. -/
structure ProxyState where
  connections : List (String × ProxyConnection)
  stopped : Bool
  loopStops : Nat
  launched : List String
deriving DecidableEq, Repr

namespace Proxy

/-- `Proxy.stop`: `if not self._stopped: IOLoop.current().stop()` followed by
`self._stopped = True`. -/
def stop (st : ProxyState) : ProxyState :=
  { st with
    loopStops := if st.stopped then st.loopStops else st.loopStops + 1
    stopped := true }

/-- `Proxy.proxy_connection_is_registered`:
`self._connections.get(connection.name, None) is connection`.  The `is`
comparison is object identity, modelled by the `ident` token. -/
def proxy_connection_is_registered (st : ProxyState) (c : ProxyConnection) :
    Bool :=
  match dictGet st.connections c.name with
  | some d => d.ident = c.ident
  | none => false

/-- Modelled from the spec: `ProxyConnection.can_be_deregistered` is the
eligibility predicate — a session may be removed iff it has zero observer
queues, its producer link is absent or has signaled termination, and it is
not in its grace period.  (The `ProxyConnection` class is not part of this
source slice.) -/
def can_be_deregistered (c : ProxyConnection) : Bool :=
  c.clientQueues.isEmpty
    && (match c.producer with
        | .absent => true
        | .terminated => true
        | .active => false)
    && !c.inGracePeriod

/-- `Proxy.try_to_deregister_proxy_connection`: return unless the connection
is registered to its name; delete the binding iff it can be deregistered. -/
def try_to_deregister_proxy_connection (st : ProxyState)
    (c : ProxyConnection) : ProxyState :=
  if !proxy_connection_is_registered st c then st
  else if can_be_deregistered c then
    { st with connections := dictDel st.connections c.name }
  else st

/-- `Proxy.potentially_stop`: `if not self._connections: self.stop()`. -/
def potentially_stop (st : ProxyState) : ProxyState :=
  if st.connections.isEmpty then stop st else st

/-- Modelled from the spec: `ProxyConnection.end_grace_period` clears the
grace-period flag of the connection object (in-place mutation). -/
def end_grace_period (c : ProxyConnection) : ProxyConnection :=
  { c with inGracePeriod := false }

/-- In-place mutation of the object `c` into `c'` is visible through every
reference to `c`; besides locals, the only long-lived reference is the
registry binding under `c.name`, which is updated when it is `c` itself. -/
def writeBack (st : ProxyState) (c c' : ProxyConnection) : ProxyState :=
  if proxy_connection_is_registered st c then
    { st with connections := dictSet st.connections c.name c' }
  else st

/-- The nested `connection_timeout` closure from
`Proxy.register_proxy_connection`, scheduled with `loop.call_later`; this is
its behavior when the timer fires: `connection.end_grace_period()`, then
`self.try_to_deregister_proxy_connection(connection)`, then
`self.potentially_stop()`. -/
def connection_timeout (st : ProxyState) (c : ProxyConnection) : ProxyState :=
  let c' := end_grace_period c
  let st1 := writeBack st c c'
  let st2 := try_to_deregister_proxy_connection st1 c'
  potentially_stop st2

/-- `Proxy.register_proxy_connection` (minus the `loop.call_later` arming,
which is the external timer whose fire event is `connection_timeout`):
compute `new_name = connection.name not in self._connections`, store the
connection under its name, and launch a web client iff the name was new. -/
def register_proxy_connection (st : ProxyState) (c : ProxyConnection) :
    ProxyState :=
  let new_name := (dictGet st.connections c.name).isNone
  let st1 := { st with connections := dictSet st.connections c.name c }
  if new_name then { st1 with launched := st1.launched ++ [c.name] } else st1

/-- Modelled from the spec: `ProxyConnection.remove_client_queue` removes
the given queue from the session's set of observer queues. -/
def remove_client_queue (c : ProxyConnection) (q : Nat) : ProxyConnection :=
  { c with clientQueues := c.clientQueues.erase q }

/-- `Proxy.remove_client`: `connection.remove_client_queue(queue)`, then
`self.try_to_deregister_proxy_connection(connection)`, then
`self.potentially_stop()`. -/
def remove_client (st : ProxyState) (c : ProxyConnection) (q : Nat) :
    ProxyState :=
  let c' := remove_client_queue c q
  let st1 := writeBack st c c'
  let st2 := try_to_deregister_proxy_connection st1 c'
  potentially_stop st2

/-- Modelled from the spec: `ProxyConnection.add_client_queue` creates a
fresh outbound queue, adds it to the session's observer queues, and returns
its handle. -/
def add_client_queue (c : ProxyConnection) : ProxyConnection × Nat :=
  ({ c with
      clientQueues := c.clientQueues ++ [c.nextQueueId]
      nextQueueId := c.nextQueueId + 1 },
   c.nextQueueId)

/-- `Proxy.add_client`: `connection = self._connections[report_name]` (a
missing name raises `KeyError`, which propagates to the caller with the
registry untouched — modelled as `Except.error ()`); otherwise attach a
fresh queue to the stored connection and return it together with the queue
(the `new_report_msg` send is an external transport effect). -/
def add_client (st : ProxyState) (report_name : String) :
    ProxyState × Except Unit (ProxyConnection × Nat) :=
  match dictGet st.connections report_name with
  | none => (st, Except.error ())
  | some conn =>
      let p := add_client_queue conn
      ({ st with connections := dictSet st.connections report_name p.1 },
       Except.ok (p.1, p.2))

end Proxy

/-- The `wrapped_callback` produced by the `stop_proxy_on_exception`
decorator: run the callback; if it raises any exception, call
`web_socket_handler._proxy.stop()` and re-raise.  A callback is modelled as
a state transformer that also reports whether it raised (`true` = an
exception escaped); the wrapped_coroutine variant has the same observable
behavior (`gen.Return` is the normal return path). -/
def stop_proxy_on_exception (cb : ProxyState → ProxyState × Bool)
    (st : ProxyState) : ProxyState × Bool :=
  let r := cb st
  if r.2 then (Proxy.stop r.1, true) else (r.1, false)

/-! ## Concrete sample objects used to instantiate the theorems -/

/-- A registered connection with no observers, a terminated producer and an
expired grace period. -/
def idleConn : ProxyConnection :=
  { ident := 1, name := "report-a", reportId := 10, clientQueues := [],
    producer := .terminated, inGracePeriod := false, nextQueueId := 0 }

/-- A running proxy whose registry holds exactly `idleConn`. -/
def idleState : ProxyState :=
  { connections := [("report-a", idleConn)], stopped := false,
    loopStops := 0, launched := [] }

/-- A proxy that has already signalled shutdown over an empty registry. -/
def stoppedState : ProxyState :=
  { connections := [], stopped := true, loopStops := 1, launched := [] }

/-- A connection with one observer queue and a live producer. -/
def connA : ProxyConnection :=
  { ident := 1, name := "report-b", reportId := 7, clientQueues := [3],
    producer := .active, inGracePeriod := true, nextQueueId := 4 }

/-- The same field values as `connA` but a different object identity: the
record that replaced `connA` under its name. -/
def connB : ProxyConnection :=
  { connA with ident := 2 }

/-- A registry in which `connA` has been replaced by `connB`. -/
def replacedState : ProxyState :=
  { connections := [("report-b", connB)], stopped := false,
    loopStops := 0, launched := [] }

/-- A first producer connection for the name `report-c`. -/
def prodOne : ProxyConnection :=
  { ident := 11, name := "report-c", reportId := 1, clientQueues := [],
    producer := .active, inGracePeriod := true, nextQueueId := 0 }

/-- A second producer connection for the same name `report-c`. -/
def prodTwo : ProxyConnection :=
  { ident := 12, name := "report-c", reportId := 2, clientQueues := [],
    producer := .active, inGracePeriod := true, nextQueueId := 0 }

/-- A freshly started proxy with an empty registry. -/
def emptyProxy : ProxyState :=
  { connections := [], stopped := false, loopStops := 0, launched := [] }

/-- A connection still inside its grace period whose producer has
terminated and which has no observers. -/
def graceConn : ProxyConnection :=
  { ident := 21, name := "report-d", reportId := 3, clientQueues := [],
    producer := .terminated, inGracePeriod := true, nextQueueId := 0 }

/-- A proxy whose registry holds exactly `graceConn`. -/
def graceState : ProxyState :=
  { connections := [("report-d", graceConn)], stopped := false,
    loopStops := 0, launched := [] }

/-- A handler callback that raises on every invocation, leaving the proxy
state as it found it. -/
def raisingCallback : ProxyState → ProxyState × Bool := fun s => (s, true)

/-! ## Association-list dictionary lemmas -/

theorem dictGet_dictSet_self (m : List (String × ProxyConnection)) (n : String)
    (c : ProxyConnection) : dictGet (dictSet m n c) n = some c := by
  induction m with
  | nil => simp [dictSet, dictGet]
  | cons p rest ih =>
      obtain ⟨k, v⟩ := p
      by_cases h : k = n <;> simp [dictSet, dictGet, h, ih]

theorem dictGet_dictSet_ne (m : List (String × ProxyConnection)) (n k : String)
    (c : ProxyConnection) (h : k ≠ n) :
    dictGet (dictSet m n c) k = dictGet m k := by
  induction m with
  | nil => simp [dictSet, dictGet, Ne.symm h]
  | cons p rest ih =>
      obtain ⟨k1, v⟩ := p
      by_cases h1 : k1 = n
      · subst h1
        simp [dictSet, dictGet, Ne.symm h]
      · simp only [dictSet, if_neg h1]
        by_cases h2 : k1 = k <;> simp [dictGet, h2, ih]

theorem dictGet_dictDel_ne (m : List (String × ProxyConnection)) (n k : String)
    (h : k ≠ n) : dictGet (dictDel m n) k = dictGet m k := by
  induction m with
  | nil => simp [dictDel]
  | cons p rest ih =>
      obtain ⟨k1, v⟩ := p
      by_cases h1 : k1 = n
      · subst h1
        simp [dictDel, dictGet, Ne.symm h]
      · simp only [dictDel, if_neg h1]
        by_cases h2 : k1 = k <;> simp [dictGet, h2, ih]

theorem dictGet_eq_none_of_countKey_zero (m : List (String × ProxyConnection))
    (n : String) (h : countKey m n = 0) : dictGet m n = none := by
  induction m with
  | nil => simp [dictGet]
  | cons p rest ih =>
      obtain ⟨k, v⟩ := p
      by_cases h1 : k = n
      · simp [countKey, h1] at h
      · simp only [countKey, if_neg h1, Nat.zero_add] at h
        simp [dictGet, h1, ih h]

theorem dictGet_dictDel_self (m : List (String × ProxyConnection)) (n : String)
    (h : countKey m n ≤ 1) : dictGet (dictDel m n) n = none := by
  induction m with
  | nil => simp [dictDel, dictGet]
  | cons p rest ih =>
      obtain ⟨k, v⟩ := p
      by_cases h1 : k = n
      · simp only [countKey, if_pos h1] at h
        have h0 : countKey rest n = 0 := by omega
        simp [dictDel, h1, dictGet_eq_none_of_countKey_zero rest n h0]
      · simp only [countKey, if_neg h1, Nat.zero_add] at h
        simp [dictDel, dictGet, h1, ih h]

theorem dictDel_dictSet (m : List (String × ProxyConnection)) (n : String)
    (c : ProxyConnection) : dictDel (dictSet m n c) n = dictDel m n := by
  induction m with
  | nil => simp [dictSet, dictDel]
  | cons p rest ih =>
      obtain ⟨k, v⟩ := p
      by_cases h : k = n <;> simp [dictSet, dictDel, h, ih]

theorem countKey_dictSet (m : List (String × ProxyConnection)) (n : String)
    (c : ProxyConnection) : countKey (dictSet m n c) n = max (countKey m n) 1 := by
  induction m with
  | nil => simp [dictSet, countKey]
  | cons p rest ih =>
      obtain ⟨k, v⟩ := p
      by_cases h : k = n
      · subst h
        simp [dictSet, countKey]
      · simp only [dictSet, if_neg h, countKey, if_neg h, Nat.zero_add, ih]

theorem register_connections (st : ProxyState) (c : ProxyConnection) :
    (Proxy.register_proxy_connection st c).connections
      = dictSet st.connections c.name c := by
  by_cases h : (dictGet st.connections c.name).isNone
    <;> simp [Proxy.register_proxy_connection, h]

theorem register_stopped (st : ProxyState) (c : ProxyConnection) :
    (Proxy.register_proxy_connection st c).stopped = st.stopped := by
  by_cases h : (dictGet st.connections c.name).isNone
    <;> simp [Proxy.register_proxy_connection, h]

theorem potentially_stop_connections (st : ProxyState) :
    (Proxy.potentially_stop st).connections = st.connections := by
  unfold Proxy.potentially_stop Proxy.stop
  split <;> rfl

/-! ## Claim theorems -/

/-- Claim C1: `try_to_deregister_proxy_connection` removes the entry for the
connection's name from the registry iff the connection is exactly the record
currently stored under its name (`proxy_connection_is_registered`) and it
satisfies the eligibility predicate (`can_be_deregistered`: zero observer
queues, producer absent or terminated, not in grace period); in every other
case the whole proxy state is unchanged, so the call is safe to make
speculatively after any state change. -/
theorem try_to_deregister_spec (st : ProxyState) (c : ProxyConnection) :
    (Proxy.proxy_connection_is_registered st c = true →
       Proxy.can_be_deregistered c = true →
       (Proxy.try_to_deregister_proxy_connection st c).connections
           = dictDel st.connections c.name
         ∧ (countKey st.connections c.name ≤ 1 →
             dictGet (Proxy.try_to_deregister_proxy_connection st c).connections
               c.name = none))
    ∧ (Proxy.proxy_connection_is_registered st c = false →
        Proxy.try_to_deregister_proxy_connection st c = st)
    ∧ (Proxy.can_be_deregistered c = false →
        Proxy.try_to_deregister_proxy_connection st c = st) := by
  refine ⟨fun hreg helig => ⟨?_, fun hwf => ?_⟩, fun hreg => ?_, fun helig => ?_⟩
  · simp [Proxy.try_to_deregister_proxy_connection, hreg, helig]
  · simp only [Proxy.try_to_deregister_proxy_connection, hreg, helig,
      Bool.not_true, Bool.false_eq_true, if_false, if_true]
    exact dictGet_dictDel_self _ _ hwf
  · simp [Proxy.try_to_deregister_proxy_connection, hreg]
  · by_cases hreg : Proxy.proxy_connection_is_registered st c
      <;> simp [Proxy.try_to_deregister_proxy_connection, hreg, helig]

/-- Witness for C1: the registered, eligible `idleConn` is removed from
`idleState`. -/
theorem try_to_deregister_spec_witness :
    Proxy.proxy_connection_is_registered idleState idleConn = true
    ∧ Proxy.can_be_deregistered idleConn = true
    ∧ (Proxy.try_to_deregister_proxy_connection idleState idleConn).connections
        = dictDel idleState.connections idleConn.name
    ∧ dictGet (Proxy.try_to_deregister_proxy_connection idleState
        idleConn).connections idleConn.name = none :=
  ⟨by decide, by decide,
   ((try_to_deregister_spec idleState idleConn).1 (by decide) (by decide)).1,
   ((try_to_deregister_spec idleState idleConn).1 (by decide) (by decide)).2
     (by decide)⟩

/-- Claim C3: `potentially_stop` performs the loop-stop action only when the
registry is empty, and once shutdown has been signalled (`_stopped` true)
both `stop` and `potentially_stop` are exact no-ops, so the underlying
loop-stop action is never performed a second time; `stop` always records
that shutdown has been signalled, and the first stop over an empty registry
performs the action exactly once. -/
theorem shutdown_once_spec (st : ProxyState) :
    (st.connections ≠ [] → Proxy.potentially_stop st = st)
    ∧ (st.stopped = true →
        Proxy.stop st = st ∧ Proxy.potentially_stop st = st)
    ∧ (Proxy.stop st).stopped = true
    ∧ (st.stopped = false → st.connections = [] →
        (Proxy.potentially_stop st).loopStops = st.loopStops + 1
          ∧ (Proxy.potentially_stop st).stopped = true) := by
  obtain ⟨conns, stopped, nstops, launched⟩ := st
  refine ⟨fun h => ?_, fun h => ?_, ?_, fun h1 h2 => ?_⟩
  · simp only [Proxy.potentially_stop]
    rw [if_neg]
    simp [List.isEmpty_iff, h]
  · subst h
    constructor
    · simp [Proxy.stop]
    · by_cases hc : conns.isEmpty <;> simp [Proxy.potentially_stop, Proxy.stop, hc]
  · simp [Proxy.stop]
  · subst h1
    subst h2
    simp [Proxy.potentially_stop, Proxy.stop]

/-- Witness for C3: on the already-stopped proxy both `stop` and
`potentially_stop` change nothing. -/
theorem shutdown_once_spec_witness :
    stoppedState.stopped = true
    ∧ Proxy.stop stoppedState = stoppedState
    ∧ Proxy.potentially_stop stoppedState = stoppedState :=
  ⟨rfl, ((shutdown_once_spec stoppedState).2.1 rfl).1,
   ((shutdown_once_spec stoppedState).2.1 rfl).2⟩

/-- Claim C8: `proxy_connection_is_registered` is true iff the record stored
under the connection's name is that very object — identity-token equality,
independent of every other field; it is false when the name is absent from
the registry. -/
theorem is_registered_iff_identity (st : ProxyState) (c : ProxyConnection) :
    (dictGet st.connections c.name = none →
       Proxy.proxy_connection_is_registered st c = false)
    ∧ (∀ d : ProxyConnection, dictGet st.connections c.name = some d →
        (Proxy.proxy_connection_is_registered st c = true ↔ d.ident = c.ident)) := by
  constructor
  · intro h
    simp [Proxy.proxy_connection_is_registered, h]
  · intro d h
    simp [Proxy.proxy_connection_is_registered, h]

/-- Witness for C8: `connB` agrees with `connA` on every field except the
identity token, yet `connA` does not count as registered after the
replacement. -/
theorem is_registered_iff_identity_witness :
    dictGet replacedState.connections connA.name = some connB
    ∧ (Proxy.proxy_connection_is_registered replacedState connA = true
        ↔ connB.ident = connA.ident) :=
  ⟨by decide,
   (is_registered_iff_identity replacedState connA).2 connB (by decide)⟩

/-- Claim C2: registering `p1` under a name and then registering `p2` under
the same name leaves exactly one binding for that name in the registry, the
stored record is `p2`, and the `p1` record no longer counts as registered
(latest producer wins). -/
theorem register_replacement (st : ProxyState) (p1 p2 : ProxyConnection)
    (n : String) (h1 : p1.name = n) (h2 : p2.name = n)
    (hwf : countKey st.connections n ≤ 1) (hne : p1.ident ≠ p2.ident) :
    dictGet (Proxy.register_proxy_connection
        (Proxy.register_proxy_connection st p1) p2).connections n = some p2
    ∧ countKey (Proxy.register_proxy_connection
        (Proxy.register_proxy_connection st p1) p2).connections n = 1
    ∧ Proxy.proxy_connection_is_registered
        (Proxy.register_proxy_connection
          (Proxy.register_proxy_connection st p1) p2) p1 = false := by
  have hc : (Proxy.register_proxy_connection
      (Proxy.register_proxy_connection st p1) p2).connections
      = dictSet (dictSet st.connections n p1) n p2 := by
    rw [register_connections, register_connections, h1, h2]
  refine ⟨?_, ?_, ?_⟩
  · rw [hc]
    exact dictGet_dictSet_self _ _ _
  · rw [hc, countKey_dictSet, countKey_dictSet]
    omega
  · simp only [Proxy.proxy_connection_is_registered, hc, h1,
      dictGet_dictSet_self]
    simp [Ne.symm hne]

/-- Witness for C2: two producers registered in turn under `report-c` on an
empty registry. -/
theorem register_replacement_witness :
    dictGet (Proxy.register_proxy_connection
        (Proxy.register_proxy_connection emptyProxy prodOne)
        prodTwo).connections "report-c" = some prodTwo
    ∧ countKey (Proxy.register_proxy_connection
        (Proxy.register_proxy_connection emptyProxy prodOne)
        prodTwo).connections "report-c" = 1
    ∧ Proxy.proxy_connection_is_registered
        (Proxy.register_proxy_connection
          (Proxy.register_proxy_connection emptyProxy prodOne) prodTwo)
        prodOne = false :=
  register_replacement emptyProxy prodOne prodTwo "report-c" rfl rfl
    (by decide) (by decide)

/-- Claim C5: a registration appends exactly one `_launch_web_client`
invocation iff no connection was stored under the name immediately before;
a replacing registration leaves the launch log unchanged. -/
theorem register_launch_spec (st : ProxyState) (c : ProxyConnection) :
    (dictGet st.connections c.name = none →
       (Proxy.register_proxy_connection st c).launched
         = st.launched ++ [c.name])
    ∧ (∀ d : ProxyConnection, dictGet st.connections c.name = some d →
        (Proxy.register_proxy_connection st c).launched = st.launched) := by
  constructor
  · intro h
    simp [Proxy.register_proxy_connection, h]
  · intro d h
    simp [Proxy.register_proxy_connection, h]

/-- Witness for C5: a first registration of `report-c` launches a viewer
once; the replacing registration launches none. -/
theorem register_launch_spec_witness :
    (Proxy.register_proxy_connection emptyProxy prodOne).launched
        = emptyProxy.launched ++ [prodOne.name]
    ∧ (Proxy.register_proxy_connection
        (Proxy.register_proxy_connection emptyProxy prodOne)
        prodTwo).launched
        = (Proxy.register_proxy_connection emptyProxy prodOne).launched :=
  ⟨(register_launch_spec emptyProxy prodOne).1 rfl,
   (register_launch_spec (Proxy.register_proxy_connection emptyProxy prodOne)
     prodTwo).2 prodOne (by decide)⟩

/-- Claim C6: `add_client` under a name with no live connection fails — the
dict subscript raises `KeyError`, surfaced to the caller — with the proxy
state unchanged, and it fails exactly when the name is absent. -/
theorem add_client_notfound (st : ProxyState) (n : String) :
    (dictGet st.connections n = none →
       Proxy.add_client st n = (st, Except.error ()))
    ∧ ((Proxy.add_client st n).2 = Except.error () ↔
        dictGet st.connections n = none) := by
  constructor
  · intro h
    simp [Proxy.add_client, h]
  · unfold Proxy.add_client
    cases hg : dictGet st.connections n <;> simp [hg]

/-- Witness for C6: attaching an observer to the empty registry fails and
returns the registry untouched. -/
theorem add_client_notfound_witness :
    dictGet emptyProxy.connections "report-a" = none
    ∧ Proxy.add_client emptyProxy "report-a" = (emptyProxy, Except.error ()) :=
  ⟨rfl, (add_client_notfound emptyProxy "report-a").1 rfl⟩

/-- Claim C10 (frame): for any name other than the connection's own,
deregistration and registration leave that name's binding unchanged —
deregistration can delete at most the entry under the connection's name and
registration writes only that entry. -/
theorem registry_frame (st : ProxyState) (c : ProxyConnection) (m : String)
    (h : m ≠ c.name) :
    dictGet (Proxy.try_to_deregister_proxy_connection st c).connections m
        = dictGet st.connections m
    ∧ dictGet (Proxy.register_proxy_connection st c).connections m
        = dictGet st.connections m := by
  constructor
  · unfold Proxy.try_to_deregister_proxy_connection
    split
    · rfl
    · split
      · exact dictGet_dictDel_ne _ _ _ h
      · rfl
  · rw [register_connections]
    exact dictGet_dictSet_ne _ _ _ _ h

/-- Witness for C10: removing and re-registering `idleConn` never touches
the absent binding of the unrelated name `other`. -/
theorem registry_frame_witness :
    ("other" : String) ≠ idleConn.name
    ∧ dictGet (Proxy.try_to_deregister_proxy_connection idleState
        idleConn).connections "other" = dictGet idleState.connections "other"
    ∧ dictGet (Proxy.register_proxy_connection idleState
        idleConn).connections "other" = dictGet idleState.connections "other" :=
  ⟨by decide, (registry_frame idleState idleConn "other" (by decide)).1,
   (registry_frame idleState idleConn "other" (by decide)).2⟩

/-! ## Mutation-then-deregistration helpers shared by the event handlers -/

theorem mutate_then_deregister (st : ProxyState) (c c2 : ProxyConnection)
    (hname : c2.name = c.name)
    (hreg : Proxy.proxy_connection_is_registered st c = true)
    (hcb : Proxy.can_be_deregistered c2 = true) :
    Proxy.try_to_deregister_proxy_connection (Proxy.writeBack st c c2) c2
      = { st with connections := dictDel st.connections c.name } := by
  have h1 : Proxy.writeBack st c c2
      = { st with connections := dictSet st.connections c.name c2 } := by
    simp [Proxy.writeBack, hreg]
  have hreg2 : Proxy.proxy_connection_is_registered
      { st with connections := dictSet st.connections c.name c2 } c2 = true := by
    simp [Proxy.proxy_connection_is_registered, hname, dictGet_dictSet_self]
  rw [h1]
  simp [Proxy.try_to_deregister_proxy_connection, hreg2, hcb, hname,
    dictDel_dictSet]

theorem mutate_then_deregister_stale (st : ProxyState) (c c2 : ProxyConnection)
    (hname : c2.name = c.name) (hident : c2.ident = c.ident)
    (hreg : Proxy.proxy_connection_is_registered st c = false) :
    Proxy.try_to_deregister_proxy_connection (Proxy.writeBack st c c2) c2
      = st := by
  have hreg2 : Proxy.proxy_connection_is_registered st c2 = false := by
    simpa [Proxy.proxy_connection_is_registered, hname, hident] using hreg
  have h1 : Proxy.writeBack st c c2 = st := by
    simp [Proxy.writeBack, hreg]
  rw [h1]
  simp [Proxy.try_to_deregister_proxy_connection, hreg2]

/-- Claim C4: the grace-timer fire handler performs, in this order, (1)
`end_grace_period` on the connection, (2) `try_to_deregister_proxy_connection`,
(3) `potentially_stop`; clearing the flag first means a registered
connection with no observers and a gone producer is removed even when the
fire finds it still flagged in-grace, while a fire for a connection that has
been replaced or removed leaves the registry map unchanged. -/
theorem connection_timeout_spec (st : ProxyState) (c : ProxyConnection) :
    (Proxy.connection_timeout st c
        = Proxy.potentially_stop (Proxy.try_to_deregister_proxy_connection
            (Proxy.writeBack st c (Proxy.end_grace_period c))
            (Proxy.end_grace_period c)))
    ∧ (Proxy.proxy_connection_is_registered st c = true →
        c.clientQueues = [] →
        (c.producer = ProducerLink.absent ∨ c.producer = ProducerLink.terminated) →
        (Proxy.connection_timeout st c).connections
          = dictDel st.connections c.name)
    ∧ (Proxy.proxy_connection_is_registered st c = false →
        (Proxy.connection_timeout st c).connections = st.connections) := by
  refine ⟨rfl, fun hreg hq hp => ?_, fun hreg => ?_⟩
  · have hcb : Proxy.can_be_deregistered (Proxy.end_grace_period c) = true := by
      rcases hp with hp | hp
        <;> simp [Proxy.can_be_deregistered, Proxy.end_grace_period, hq, hp]
    have h := mutate_then_deregister st c (Proxy.end_grace_period c) rfl hreg hcb
    show (Proxy.potentially_stop (Proxy.try_to_deregister_proxy_connection
        (Proxy.writeBack st c (Proxy.end_grace_period c))
        (Proxy.end_grace_period c))).connections = dictDel st.connections c.name
    rw [h, potentially_stop_connections]
  · have h := mutate_then_deregister_stale st c (Proxy.end_grace_period c)
      rfl rfl hreg
    show (Proxy.potentially_stop (Proxy.try_to_deregister_proxy_connection
        (Proxy.writeBack st c (Proxy.end_grace_period c))
        (Proxy.end_grace_period c))).connections = st.connections
    rw [h, potentially_stop_connections]

/-- Witness for C4: the fire removes the observerless `graceConn` although
its grace flag is still set, and a fire for the foreign `connA` leaves the
registry of `graceState` untouched. -/
theorem connection_timeout_spec_witness :
    Proxy.proxy_connection_is_registered graceState graceConn = true
    ∧ graceConn.inGracePeriod = true
    ∧ (Proxy.connection_timeout graceState graceConn).connections
        = dictDel graceState.connections graceConn.name
    ∧ Proxy.proxy_connection_is_registered graceState connA = false
    ∧ (Proxy.connection_timeout graceState connA).connections
        = graceState.connections :=
  ⟨by decide, rfl,
   (connection_timeout_spec graceState graceConn).2.1 (by decide) rfl
     (Or.inr rfl),
   by decide,
   (connection_timeout_spec graceState connA).2.2 (by decide)⟩

/-- Claim C9: `remove_client` removes the queue from the connection's
observer set, then calls `try_to_deregister_proxy_connection`, then
`potentially_stop`, all within the one detach event; when the detach makes
the registered connection eligible it is removed, and if it was the last
entry the loop-stop action is performed. -/
theorem remove_client_spec (st : ProxyState) (c : ProxyConnection) (q : Nat) :
    (Proxy.remove_client st c q
        = Proxy.potentially_stop (Proxy.try_to_deregister_proxy_connection
            (Proxy.writeBack st c (Proxy.remove_client_queue c q))
            (Proxy.remove_client_queue c q)))
    ∧ (Proxy.proxy_connection_is_registered st c = true →
        c.clientQueues.erase q = [] →
        (c.producer = ProducerLink.absent ∨ c.producer = ProducerLink.terminated) →
        c.inGracePeriod = false →
        (Proxy.remove_client st c q).connections = dictDel st.connections c.name
        ∧ (dictDel st.connections c.name = [] → st.stopped = false →
            (Proxy.remove_client st c q).stopped = true
            ∧ (Proxy.remove_client st c q).loopStops = st.loopStops + 1)) := by
  refine ⟨rfl, fun hreg hq hp hg => ?_⟩
  have hcb : Proxy.can_be_deregistered (Proxy.remove_client_queue c q) = true := by
    rcases hp with hp | hp
      <;> simp [Proxy.can_be_deregistered, Proxy.remove_client_queue, hq, hp, hg]
  have h := mutate_then_deregister st c (Proxy.remove_client_queue c q) rfl hreg hcb
  have e : Proxy.remove_client st c q
      = Proxy.potentially_stop
          { st with connections := dictDel st.connections c.name } := by
    show Proxy.potentially_stop (Proxy.try_to_deregister_proxy_connection
        (Proxy.writeBack st c (Proxy.remove_client_queue c q))
        (Proxy.remove_client_queue c q))
      = Proxy.potentially_stop
          { st with connections := dictDel st.connections c.name }
    rw [h]
  constructor
  · rw [e, potentially_stop_connections]
  · intro hdel hstop
    rw [e]
    constructor <;> simp [Proxy.potentially_stop, Proxy.stop, hdel, hstop]

/-- Witness for C9: detaching the single observer queue of `connA` (whose
producer has terminated and whose grace period is over) empties the registry
and stops the loop. -/
theorem remove_client_spec_witness :
    Proxy.proxy_connection_is_registered
        { connections := [("report-b",
            { connA with producer := ProducerLink.terminated,
                         inGracePeriod := false })],
          stopped := false, loopStops := 0, launched := [] }
        { connA with producer := ProducerLink.terminated,
                     inGracePeriod := false } = true
    ∧ (Proxy.remove_client
        { connections := [("report-b",
            { connA with producer := ProducerLink.terminated,
                         inGracePeriod := false })],
          stopped := false, loopStops := 0, launched := [] }
        { connA with producer := ProducerLink.terminated,
                     inGracePeriod := false } 3).stopped = true
    ∧ (Proxy.remove_client
        { connections := [("report-b",
            { connA with producer := ProducerLink.terminated,
                         inGracePeriod := false })],
          stopped := false, loopStops := 0, launched := [] }
        { connA with producer := ProducerLink.terminated,
                     inGracePeriod := false } 3).loopStops = 0 + 1 :=
  ⟨by decide,
   (((remove_client_spec
      { connections := [("report-b",
          { connA with producer := ProducerLink.terminated,
                       inGracePeriod := false })],
        stopped := false, loopStops := 0, launched := [] }
      { connA with producer := ProducerLink.terminated,
                   inGracePeriod := false } 3).2
      (by decide) (by decide) (Or.inr rfl) rfl).2 (by decide) rfl).1,
   (((remove_client_spec
      { connections := [("report-b",
          { connA with producer := ProducerLink.terminated,
                       inGracePeriod := false })],
        stopped := false, loopStops := 0, launched := [] }
      { connA with producer := ProducerLink.terminated,
                   inGracePeriod := false } 3).2
      (by decide) (by decide) (Or.inr rfl) rfl).2 (by decide) rfl).2⟩

/-- Claim C7 counterexample: an exception while handling one connection does
run the shutdown path — the `stop_proxy_on_exception` wrapper stops the
event loop although the registry still holds a live connection. -/
theorem stop_on_exception_cex :
    replacedState.connections ≠ []
    ∧ replacedState.stopped = false
    ∧ replacedState.loopStops = 0
    ∧ (stop_proxy_on_exception raisingCallback replacedState).1.loopStops = 1
    ∧ (stop_proxy_on_exception raisingCallback replacedState).1.stopped = true
    ∧ (stop_proxy_on_exception raisingCallback replacedState).2 = true := by
  refine ⟨by decide, rfl, rfl, by decide, by decide, by decide⟩

/-- Claim C7 amended: whenever a decorated handler callback raises,
`stop_proxy_on_exception` stops the proxy (idempotently, via `Proxy.stop`)
and re-raises, regardless of the registry contents; loop shutdown is
therefore not restricted to the registry-empty path. -/
theorem stop_on_exception_stops (cb : ProxyState → ProxyState × Bool)
    (st : ProxyState) (h : (cb st).2 = true) :
    stop_proxy_on_exception cb st = (Proxy.stop (cb st).1, true) := by
  simp [stop_proxy_on_exception, h]

/-- Witness for the amended C7 at a raising callback over a non-empty
registry. -/
theorem stop_on_exception_stops_witness :
    (raisingCallback replacedState).2 = true
    ∧ stop_proxy_on_exception raisingCallback replacedState
        = (Proxy.stop (raisingCallback replacedState).1, true) :=
  ⟨rfl, stop_on_exception_stops raisingCallback replacedState rfl⟩
